import Mathlib

/-!
# Matrix Guardian — verification of the autopilot decision core and admin console

A shallow embedding of the parts of the `matrix-guardian` repository that the
verified properties talk about:

* the Policy Gate, HITL thread state machine, Health Scorer, Health Prober and
  Cycle Scheduler of the autopilot core (the backend implementation is not part
  of the source tree that ships here, so these are modelled from the
  specification, §4 of `spec.md`, as indicated on each definition);
* the admin-console frontend (`frontend/src/App.jsx`,
  `frontend/src/components/dashboard/InterventionQueue.jsx`,
  `frontend/src/services/api.js`), translated directly from the JavaScript
  source.

JavaScript numbers carried by `risk_score` fields are modelled as rationals
(`ℚ`); machine floats do not occur in any compared quantity at a precision
that matters for the counting and ordering facts proved here.
-/

namespace Guardian

/-! ## Policy Gate (spec §4.4) -/

/-- Verdict of the Policy Gate for one Plan. -/
inductive Verdict where
  | AUTO_EXECUTE
  | REQUIRE_APPROVAL
  | REJECTED
deriving DecidableEq, Repr

/-- A remediation Plan as consumed by the Policy Gate (spec §3). -/
structure Plan where
  action : String
  targetHost : String
  riskLevel : String
  reason : String
deriving DecidableEq, Repr

/-- Policy configuration consumed by the Policy Gate (spec §4.4):
safe-mode flag, risk thresholds, action sets, target allowlist and the
rolling-hour rate limit. -/
structure PolicyConfig where
  safe_mode : Bool
  lowThreshold : Nat
  mediumThreshold : Nat
  highThreshold : Nat
  alwaysRequireApproval : List String
  alwaysAutoApprove : List String
  allowedHosts : List String
  maxActionsPerHour : Nat
deriving DecidableEq, Repr

/-- Decision of the Policy Gate: verdict, the risk score it judged, and the
policy clause that fired (for audit). -/
structure Decision where
  verdict : Verdict
  risk_score : Nat
  reasons : List String
deriving DecidableEq, Repr

/-- Modelled from the spec: the Policy Gate decision function of §4.4 (the
backend implementation is not in the shipped source tree).  Rules are tried
in order, first match wins:
1. safe_mode on → REQUIRE_APPROVAL;
2. target host not allowlisted → REJECTED;
3. action in the always-requires-approval set → REQUIRE_APPROVAL;
4. rolling-hour count at the limit → REQUIRE_APPROVAL;
5. risk above the medium threshold → REQUIRE_APPROVAL;
6. action in the always-auto-approvable set and risk ≤ medium → AUTO_EXECUTE;
7. default → REQUIRE_APPROVAL. -/
def policyGate (cfg : PolicyConfig) (plan : Plan) (risk : Nat)
    (hourCount : Nat) : Decision :=
  if cfg.safe_mode then
    ⟨.REQUIRE_APPROVAL, risk, ["safe_mode"]⟩
  else if plan.targetHost ∉ cfg.allowedHosts then
    ⟨.REJECTED, risk, ["host_not_allowlisted"]⟩
  else if plan.action ∈ cfg.alwaysRequireApproval then
    ⟨.REQUIRE_APPROVAL, risk, ["action_requires_approval"]⟩
  else if cfg.maxActionsPerHour ≤ hourCount then
    ⟨.REQUIRE_APPROVAL, risk, ["rate_limit_reached"]⟩
  else if cfg.mediumThreshold < risk then
    ⟨.REQUIRE_APPROVAL, risk, ["risk_above_medium"]⟩
  else if plan.action ∈ cfg.alwaysAutoApprove ∧ risk ≤ cfg.mediumThreshold then
    ⟨.AUTO_EXECUTE, risk, ["action_auto_approved"]⟩
  else
    ⟨.REQUIRE_APPROVAL, risk, ["default_fail_closed"]⟩

end Guardian

namespace Guardian

/-! ## HITL thread state machine (spec §4.5) -/

/-- State of a human-in-the-loop thread (spec §3 / §4.5). -/
inductive ThreadState where
  | RUNNING
  | PAUSED
  | APPROVED
  | REJECTED
  | COMPLETED
  | FAILED
deriving DecidableEq, Repr

/-- A resume decision arriving from the external approval UI/API. -/
inductive ResumeDecision where
  | approve
  | reject
deriving DecidableEq, Repr

/-- The state a PAUSED thread moves to under a resume decision
(approve → APPROVED, reject → REJECTED). -/
def resolvedState : ResumeDecision → ThreadState
  | .approve => .APPROVED
  | .reject => .REJECTED

/-- Modelled from the spec: the resume transition of the HITL Thread Manager
of §4.5 (the backend implementation is not in the shipped source tree).
Resuming a PAUSED thread commits the transition; resuming an
already-resolved thread (APPROVED/REJECTED, and the terminal
COMPLETED/FAILED states reached after resolution) fails with the explicit
"already resolved" error; resuming a RUNNING thread is not a valid resume. -/
def resume (st : ThreadState) (d : ResumeDecision) : Except String ThreadState :=
  match st with
  | .PAUSED => .ok (resolvedState d)
  | .RUNNING => .error "not paused"
  | .APPROVED | .REJECTED | .COMPLETED | .FAILED => .error "already resolved"

/-- The thread state after a resume call: the committed transition on
success, unchanged on error. -/
def applyResume (st : ThreadState) (d : ResumeDecision) : ThreadState :=
  match resume st d with
  | .ok st' => st'
  | .error _ => st

/-! ## Health Scorer (spec §4.2) -/

/-- Per-target health status (spec §3). -/
inductive HealthStatus where
  | OK
  | DEGRADED
  | FAILED
deriving DecidableEq, Repr

/-- Per-target health summary: status and the consecutive-failure counter
persisted across cycles (spec §3; the fields the verified policy speaks
about). -/
structure HealthSummary where
  status : HealthStatus
  consecutive_failures : Nat
deriving DecidableEq, Repr

/-- Modelled from the spec: the consecutive-failure counter update of §4.2
(the backend implementation is not in the shipped source tree) — any
successful probe resets the counter to zero, a failed probe increments it. -/
def failureStep (counter : Nat) (probeSuccess : Bool) : Nat :=
  if probeSuccess then 0 else counter + 1

/-- Modelled from the spec: the status assigned by the Health Scorer from the
updated consecutive-failure counter (§4.2) — zero failures is OK, a single
failure is DEGRADED, two or more consecutive failures are FAILED. -/
def statusOf (counter : Nat) : HealthStatus :=
  if counter = 0 then .OK
  else if counter = 1 then .DEGRADED
  else .FAILED

/-- One scoring step: the HealthSummary produced for a target from its
persisted counter and the current cycle's probe outcome. -/
def summarize (counter : Nat) (probeSuccess : Bool) : HealthSummary :=
  ⟨statusOf (failureStep counter probeSuccess), failureStep counter probeSuccess⟩

/-- The counter after a sequence of per-cycle probe outcomes. -/
def runCycles (counter : Nat) (probes : List Bool) : Nat :=
  probes.foldl failureStep counter

/-! ## Cycle Scheduler (spec §4.7) -/

/-- Observable scheduler state: how many cycles are in flight, how many ticks
were skipped (logged), and how many cycles were ever started. -/
structure SchedulerState where
  inFlight : Nat
  skipped : Nat
  started : Nat
deriving DecidableEq, Repr

/-- Modelled from the spec: a scheduler tick (§4.7; the backend worker
implementation is not in the shipped source tree — `scripts/autopilot_cron.sh`
only triggers one-shot iterations).  If no cycle is running the tick starts
one; if a cycle is still running the tick is skipped and recorded, never
queued. -/
def tick (s : SchedulerState) : SchedulerState :=
  if s.inFlight = 0 then { s with inFlight := 1, started := s.started + 1 }
  else { s with skipped := s.skipped + 1 }

/-- A running cycle completing. -/
def finishCycle (s : SchedulerState) : SchedulerState :=
  { s with inFlight := s.inFlight - 1 }

/-! ## Health Prober (spec §4.1) -/

/-- A monitored target as seen by the prober (spec §3). -/
structure Target where
  id : String
  address : String
deriving DecidableEq, Repr

/-- Outcome of the network checks for one target: success with a latency, or
one of the failure modes (timeout, connection error, protocol failure). -/
inductive NetOutcome where
  | ok (latencyMs : Nat)
  | timeout
  | connectionError (detail : String)
  | protocolFailure (detail : String)
deriving DecidableEq, Repr

/-- Result of probing one target (spec §3). -/
structure ProbeResult where
  target_id : String
  success : Bool
  latencyMs : Option Nat
  error : Option String
deriving DecidableEq, Repr

/-- Whether a network outcome is a success. -/
def outcomeSuccess : NetOutcome → Bool
  | .ok _ => true
  | _ => false

/-- Modelled from the spec: the Health Prober of §4.1 (the backend
implementation is not in the shipped source tree).  It is a total function
from the network outcome to a ProbeResult — every failure mode becomes
`success := false` with an error detail; no outcome raises past the
boundary. -/
def probe (t : Target) (o : NetOutcome) : ProbeResult :=
  match o with
  | .ok lat => ⟨t.id, true, some lat, none⟩
  | .timeout => ⟨t.id, false, none, some "timeout"⟩
  | .connectionError d => ⟨t.id, false, none, some d⟩
  | .protocolFailure d => ⟨t.id, false, none, some d⟩

/-! ## Admin-console resume calls (frontend/src/services/api.js,
frontend/src/App.jsx) -/

/-- JSON body of a resume POST (`api.js`, `guardianAPI.resumeThread`). -/
structure ResumeBody where
  decision : String
  comment : Option String
deriving DecidableEq, Repr

/-- An HTTP request issued by the frontend API layer. -/
structure HttpRequest where
  method : String
  path : String
  body : Option ResumeBody
deriving DecidableEq, Repr

/-- `guardianAPI.resumeThread(threadId, decision, comment)` from
`frontend/src/services/api.js`: POST /threads/{threadId}/resume with
body {decision, comment}. -/
def resumeThread (threadId decision : String) (comment : Option String) :
    HttpRequest :=
  ⟨"POST", "/threads/" ++ threadId ++ "/resume", some ⟨decision, comment⟩⟩

/-- `guardianAPI.getThreads()` from `frontend/src/services/api.js`. -/
def getThreads : HttpRequest := ⟨"GET", "/threads", none⟩

/-- `handleApproveThread(threadId)` from `frontend/src/App.jsx`: one resume
call with decision "approve", then a thread refresh. -/
def handleApproveThread (threadId : String) : List HttpRequest :=
  [resumeThread threadId "approve" (some "Approved via UI"), getThreads]

/-- `handleRejectThread(threadId)` from `frontend/src/App.jsx`: one resume
call with decision "reject", then a thread refresh. -/
def handleRejectThread (threadId : String) : List HttpRequest :=
  [resumeThread threadId "reject" (some "Rejected via UI"), getThreads]

/-- Recognises a resume call addressed to the given thread identifier. -/
def isResumeCall (threadId : String) (r : HttpRequest) : Bool :=
  r.method == "POST" && r.path == "/threads/" ++ threadId ++ "/resume"

/-! ## Intervention Queue risk counts (frontend/src/App.jsx,
frontend/src/components/dashboard/InterventionQueue.jsx) -/

/-- A thread as rendered by the dashboard: its status string and its JS
risk_score number (modelled as a rational). -/
structure GThread where
  status : String
  risk_score : ℚ
deriving DecidableEq, Repr

/-- The four counts displayed by an Intervention Queue card. -/
structure QueueCounts where
  pending : Nat
  low : Nat
  medium : Nat
  high : Nat
deriving DecidableEq, Repr

/-- The inline Intervention Queue card of DashboardView in
`frontend/src/App.jsx`: PAUSED threads counted with low meaning
risk_score ≤ 50, medium meaning 50 < risk_score ≤ 80, high meaning
risk_score > 80. -/
def dashboardQueueCounts (threads : List GThread) : QueueCounts where
  pending := (threads.filter fun t => t.status == "PAUSED").length
  low := (threads.filter fun t =>
    t.status == "PAUSED" && decide (t.risk_score ≤ 50)).length
  medium := (threads.filter fun t =>
    t.status == "PAUSED" &&
      (decide (50 < t.risk_score) && decide (t.risk_score ≤ 80))).length
  high := (threads.filter fun t =>
    t.status == "PAUSED" && decide (80 < t.risk_score)).length

/-- The extracted InterventionQueue component of
`frontend/src/components/dashboard/InterventionQueue.jsx`: PAUSED threads
counted with low meaning risk_score ≤ 20, medium meaning
20 < risk_score ≤ 80, high meaning risk_score > 80. -/
def componentQueueCounts (threads : List GThread) : QueueCounts where
  pending := (threads.filter fun t => t.status == "PAUSED").length
  low := (threads.filter fun t =>
    t.status == "PAUSED" && decide (t.risk_score ≤ 20)).length
  medium := (threads.filter fun t =>
    t.status == "PAUSED" &&
      (decide (20 < t.risk_score) && decide (t.risk_score ≤ 80))).length
  high := (threads.filter fun t =>
    t.status == "PAUSED" && decide (80 < t.risk_score)).length

/-- Risk-bar width from the JSX
`(categoryCount / Math.max(pendingCount, 1)) * 100`. -/
def barWidth (count pending : Nat) : ℚ :=
  ((count : ℚ) / ((max pending 1 : Nat) : ℚ)) * 100

/-- A risk-bar width is never negative. -/
lemma barWidth_nonneg (count pending : Nat) : 0 ≤ barWidth count pending := by
  unfold barWidth
  positivity

/-- A risk-bar width is at most 100 when the category count is at most the
pending count. -/
lemma barWidth_le_100 (count pending : Nat) (h : count ≤ pending) :
    barWidth count pending ≤ 100 := by
  unfold barWidth
  have hpos : (0 : ℚ) < ((max pending 1 : Nat) : ℚ) := by
    exact_mod_cast Nat.lt_of_lt_of_le Nat.zero_lt_one (Nat.le_max_right pending 1)
  have hle : ((count : Nat) : ℚ) ≤ ((max pending 1 : Nat) : ℚ) := by
    exact_mod_cast h.trans (Nat.le_max_left pending 1)
  calc ((count : ℚ) / ((max pending 1 : Nat) : ℚ)) * 100
      ≤ 1 * 100 := by
        have := (div_le_one hpos).mpr hle
        nlinarith
    _ = 100 := one_mul 100

/-- Counting threads satisfying the PAUSED test plus an extra condition
gives at most the PAUSED count. -/
lemma length_filter_and_le (p q : GThread → Bool) (l : List GThread) :
    (l.filter fun t => p t && q t).length ≤ (l.filter p).length := by
  induction l with
  | nil => exact Nat.le_refl 0
  | cons t ts ih =>
    by_cases hp : p t
    · by_cases hq : q t <;> simp [List.filter_cons, hp, hq] <;> omega
    · simpa [List.filter_cons, hp] using ih

/-- Splitting the score line at any point a ≤ 80: the score ≤ a count plus
the a < score ≤ 80 count equals the score ≤ 80 count, over PAUSED
threads. -/
lemma length_filter_split_at (a : ℚ) (ha : a ≤ 80) (l : List GThread) :
    (l.filter fun t =>
        t.status == "PAUSED" && decide (t.risk_score ≤ a)).length
      + (l.filter fun t =>
        t.status == "PAUSED" &&
          (decide (a < t.risk_score) && decide (t.risk_score ≤ 80))).length
    = (l.filter fun t =>
        t.status == "PAUSED" && decide (t.risk_score ≤ 80)).length := by
  induction l with
  | nil => rfl
  | cons t ts ih =>
    by_cases hp : t.status == "PAUSED"
    · by_cases h80 : t.risk_score ≤ 80
      · by_cases hA : t.risk_score ≤ a
        · simp [List.filter_cons, hp, h80, hA, not_lt.mpr hA]
          omega
        · simp [List.filter_cons, hp, h80, hA, not_le.mp hA]
          omega
      · have hA : ¬ t.risk_score ≤ a := fun h => h80 (h.trans ha)
        simp [List.filter_cons, hp, h80, hA]
        omega
    · simp only [List.filter_cons, hp, Bool.false_and, if_false]
      exact ih

/-- The three component risk tests split the PAUSED count: ≤ 20, then
20 < score ≤ 80, then 80 < score. -/
lemma length_filter_trichotomy (l : List GThread) :
    (l.filter fun t =>
        t.status == "PAUSED" && decide (t.risk_score ≤ 20)).length
      + (l.filter fun t =>
        t.status == "PAUSED" &&
          (decide (20 < t.risk_score) && decide (t.risk_score ≤ 80))).length
      + (l.filter fun t =>
        t.status == "PAUSED" && decide (80 < t.risk_score)).length
    = (l.filter fun t => t.status == "PAUSED").length := by
  induction l with
  | nil => rfl
  | cons t ts ih =>
    by_cases hp : t.status == "PAUSED"
    · by_cases h20 : t.risk_score ≤ 20
      · have h80 : t.risk_score ≤ 80 := h20.trans (by norm_num)
        simp [List.filter_cons, hp, h20, h80, not_lt.mpr h80, not_lt.mpr h20]
        omega
      · by_cases h80 : t.risk_score ≤ 80
        · simp [List.filter_cons, hp, h20, h80, not_le.mp h20,
            not_lt.mpr h80]
          omega
        · simp [List.filter_cons, hp, h20, h80, not_le.mp h80]
          omega
    · simp only [List.filter_cons, hp, Bool.false_and, if_false]
      exact ih

/-- C1: with safe_mode on, the Policy Gate returns REQUIRE_APPROVAL for every
Plan, risk score and rolling-hour count — rule 1 is checked first and wins
over every later rule. -/
theorem safeMode_forces_require_approval
    (cfg : PolicyConfig) (plan : Plan) (risk hourCount : Nat)
    (hsafe : cfg.safe_mode = true) :
    (policyGate cfg plan risk hourCount).verdict = .REQUIRE_APPROVAL := by
  simp [policyGate, hsafe]

/-- Witness for C1: a concrete safe-mode configuration with a low-risk plan
still yields REQUIRE_APPROVAL. -/
theorem safeMode_forces_require_approval_witness :
    (policyGate
        ⟨true, 20, 50, 80, [], ["restart"], ["svc-1.local"], 10⟩
        ⟨"restart", "svc-1.local", "low", "latency"⟩ 5 0).verdict
      = .REQUIRE_APPROVAL :=
  safeMode_forces_require_approval
    ⟨true, 20, 50, 80, [], ["restart"], ["svc-1.local"], 10⟩
    ⟨"restart", "svc-1.local", "low", "latency"⟩ 5 0 rfl

/-- C2: fail-closed — unless rule 6 explicitly grants AUTO_EXECUTE (action in
the always-auto-approvable set with risk at most the medium threshold), the
verdict is REQUIRE_APPROVAL or REJECTED; in particular the default rule
yields REQUIRE_APPROVAL. -/
theorem policyGate_fail_closed
    (cfg : PolicyConfig) (plan : Plan) (risk hourCount : Nat)
    (hnot : ¬ (plan.action ∈ cfg.alwaysAutoApprove ∧ risk ≤ cfg.mediumThreshold)) :
    (policyGate cfg plan risk hourCount).verdict = .REQUIRE_APPROVAL ∨
      (policyGate cfg plan risk hourCount).verdict = .REJECTED := by
  unfold policyGate
  split_ifs with h1 h2 h3 h4 h5 <;>
    first
      | exact Or.inl rfl
      | exact Or.inr rfl

/-- Witness for C2: a concrete plan whose action is not in the
always-auto-approvable set gets REQUIRE_APPROVAL (here through the default
rule). -/
theorem policyGate_fail_closed_witness :
    (policyGate
          ⟨false, 20, 50, 80, [], [], ["svc-1.local"], 10⟩
          ⟨"restart", "svc-1.local", "low", "latency"⟩ 5 0).verdict
        = .REQUIRE_APPROVAL ∨
      (policyGate
          ⟨false, 20, 50, 80, [], [], ["svc-1.local"], 10⟩
          ⟨"restart", "svc-1.local", "low", "latency"⟩ 5 0).verdict
        = .REJECTED :=
  policyGate_fail_closed
    ⟨false, 20, 50, 80, [], [], ["svc-1.local"], 10⟩
    ⟨"restart", "svc-1.local", "low", "latency"⟩ 5 0 (by decide)

/-- C3: a PAUSED thread leaves PAUSED exactly once — the first resume commits
approve → APPROVED or reject → REJECTED, and any subsequent resume on the
resolved thread fails with the explicit "already resolved" error while
leaving the state unchanged (so resume approve then resume reject ends in
APPROVED). -/
theorem resume_exactly_once (d₁ d₂ : ResumeDecision) :
    resume .PAUSED d₁ = .ok (resolvedState d₁) ∧
    resolvedState d₁ ≠ .PAUSED ∧
    resume (resolvedState d₁) d₂ = .error "already resolved" ∧
    applyResume (resolvedState d₁) d₂ = resolvedState d₁ := by
  cases d₁ <;> cases d₂ <;> exact ⟨rfl, by decide, rfl, rfl⟩

/-- C4: for every thread identifier, the UI Approve handler issues exactly one
resume call — POST /threads/{threadId}/resume with decision "approve" and a
comment — and the Reject handler exactly one with decision "reject" and a
comment, each addressed to that same thread identifier. -/
theorem handlers_issue_one_resume_call (threadId : String) :
    (handleApproveThread threadId).filter (isResumeCall threadId)
        = [⟨"POST", "/threads/" ++ threadId ++ "/resume",
            some ⟨"approve", some "Approved via UI"⟩⟩] ∧
    (handleRejectThread threadId).filter (isResumeCall threadId)
        = [⟨"POST", "/threads/" ++ threadId ++ "/resume",
            some ⟨"reject", some "Rejected via UI"⟩⟩] := by
  constructor <;>
    simp [handleApproveThread, handleRejectThread, resumeThread, getThreads,
      isResumeCall, List.filter]

/-- C5: exactly one failed probe yields DEGRADED with counter 1; a failure on
an already-failing target (counter ≥ 1, i.e. two or more consecutive
failures) yields FAILED with the counter equal to the length of the failure
run — in particular two consecutive failures from a healthy start give
FAILED with consecutive_failures = 2 — and any successful probe resets the
counter to zero. -/
theorem scorer_failure_policy (n : Nat) :
    summarize 0 false = ⟨.DEGRADED, 1⟩ ∧
    summarize (n + 1) false = ⟨.FAILED, n + 2⟩ ∧
    (summarize n true).consecutive_failures = 0 ∧
    (summarize n true).status = .OK ∧
    runCycles 0 [false, false] = 2 ∧
    statusOf (runCycles 0 [false, false]) = .FAILED := by
  refine ⟨rfl, ?_, rfl, rfl, rfl, rfl⟩
  simp only [summarize, failureStep, statusOf, if_neg (Bool.false_ne_true),
    Nat.succ_ne_zero, if_false]
  simp

/-- C6: the scheduler never has two cycles in flight — from an idle state, a
tick starts one cycle, and a second tick arriving while that cycle is still
running leaves exactly one cycle active, increments the skipped (logged)
count, and starts no additional cycle (it is not queued). -/
theorem at_most_one_cycle_in_flight (s : SchedulerState)
    (hidle : s.inFlight = 0) :
    (tick s).inFlight = 1 ∧
    (tick (tick s)).inFlight = 1 ∧
    (tick (tick s)).skipped = s.skipped + 1 ∧
    (tick (tick s)).started = s.started + 1 := by
  simp [tick, hidle]

/-- Witness for C6: two overlapping ticks from the fresh scheduler give one
active cycle, one skipped tick, one started cycle. -/
theorem at_most_one_cycle_in_flight_witness :
    (tick ⟨0, 0, 0⟩).inFlight = 1 ∧
    (tick (tick ⟨0, 0, 0⟩)).inFlight = 1 ∧
    (tick (tick ⟨0, 0, 0⟩)).skipped = (0 : Nat) + 1 ∧
    (tick (tick ⟨0, 0, 0⟩)).started = (0 : Nat) + 1 :=
  at_most_one_cycle_in_flight ⟨0, 0, 0⟩ rfl

/-- C7: for every target and every network outcome the prober produces a
ProbeResult for that target — success exactly on a successful check, and
every failure mode (timeout, connection error, protocol failure) reported as
success = false with an error detail present, never an exception. -/
theorem probe_total_never_throws (t : Target) (o : NetOutcome) :
    (probe t o).target_id = t.id ∧
    (probe t o).success = outcomeSuccess o ∧
    (probe t o).error.isSome = !outcomeSuccess o := by
  cases o <;> exact ⟨rfl, rfl, rfl⟩

/-- C8 counterexample: a single PAUSED thread with risk_score 30 is counted
low by the inline DashboardView card (boundary 50) but medium by the
extracted InterventionQueue component (boundary 20), so the two cards do
not compute the same (low, medium, high) counts. -/
theorem queue_counts_differ_at_30 :
    dashboardQueueCounts [⟨"PAUSED", 30⟩] ≠ componentQueueCounts [⟨"PAUSED", 30⟩] := by
  decide

/-- C8 amended: the inline DashboardView card and the InterventionQueue
component agree on the pending and high-risk counts and on the combined
low-plus-medium count, but the low/medium boundary differs (50 inline
versus 20 in the component), so the individual low and medium counts can
disagree. -/
theorem queue_counts_agree_except_boundary (threads : List GThread) :
    (dashboardQueueCounts threads).pending = (componentQueueCounts threads).pending ∧
    (dashboardQueueCounts threads).high = (componentQueueCounts threads).high ∧
    (dashboardQueueCounts threads).low + (dashboardQueueCounts threads).medium
      = (componentQueueCounts threads).low + (componentQueueCounts threads).medium := by
  refine ⟨rfl, rfl, ?_⟩
  show (threads.filter fun t =>
        t.status == "PAUSED" && decide (t.risk_score ≤ 50)).length
      + (threads.filter fun t =>
        t.status == "PAUSED" &&
          (decide (50 < t.risk_score) && decide (t.risk_score ≤ 80))).length
    = (threads.filter fun t =>
        t.status == "PAUSED" && decide (t.risk_score ≤ 20)).length
      + (threads.filter fun t =>
        t.status == "PAUSED" &&
          (decide (20 < t.risk_score) && decide (t.risk_score ≤ 80))).length
  rw [length_filter_split_at 50 (by norm_num) threads,
    length_filter_split_at 20 (by norm_num) threads]

/-- C9: in the InterventionQueue component the low, medium and high counts
sum to the pending count: the tests risk_score ≤ 20, 20 < risk_score ≤ 80
and risk_score > 80 partition the PAUSED threads. -/
theorem component_counts_partition (threads : List GThread) :
    (componentQueueCounts threads).low + (componentQueueCounts threads).medium
        + (componentQueueCounts threads).high
      = (componentQueueCounts threads).pending :=
  length_filter_trichotomy threads

/-- C10: every risk-bar width of the InterventionQueue component is
well-defined — the denominator max(pendingCount, 1) is at least 1, never
zero — and lies in [0, 100], also when there are no PAUSED threads. -/
theorem component_bar_widths_bounded (threads : List GThread) :
    1 ≤ max (componentQueueCounts threads).pending 1 ∧
    (0 ≤ barWidth (componentQueueCounts threads).low (componentQueueCounts threads).pending ∧
      barWidth (componentQueueCounts threads).low (componentQueueCounts threads).pending ≤ 100) ∧
    (0 ≤ barWidth (componentQueueCounts threads).medium (componentQueueCounts threads).pending ∧
      barWidth (componentQueueCounts threads).medium (componentQueueCounts threads).pending ≤ 100) ∧
    (0 ≤ barWidth (componentQueueCounts threads).high (componentQueueCounts threads).pending ∧
      barWidth (componentQueueCounts threads).high (componentQueueCounts threads).pending ≤ 100) := by
  have hlow : (componentQueueCounts threads).low ≤ (componentQueueCounts threads).pending :=
    length_filter_and_le _ _ threads
  have hmed : (componentQueueCounts threads).medium ≤ (componentQueueCounts threads).pending :=
    length_filter_and_le _ _ threads
  have hhigh : (componentQueueCounts threads).high ≤ (componentQueueCounts threads).pending :=
    length_filter_and_le _ _ threads
  refine ⟨le_max_right _ _, ⟨barWidth_nonneg _ _, barWidth_le_100 _ _ hlow⟩,
    ⟨barWidth_nonneg _ _, barWidth_le_100 _ _ hmed⟩,
    ⟨barWidth_nonneg _ _, barWidth_le_100 _ _ hhigh⟩⟩

end Guardian
